import Mathlib

/-!
Verification of the request-instrumentation service.

The repository contains two near-duplicate Express applications:
* `src/index.js` — console + daily-rotating-file logging (the "Index" variant);
* `src/unnamed/part_000` — Loki/JSON logging (the "Part0" variant).

Both register a Prometheus counter `http_requests_total` and a histogram
`http_response_time_seconds`, install one `app.use` middleware that, on the
response `finish` event, increments the counter, observes the histogram and
emits one structured log record, and serve `GET /normal`, `GET /abnormal`
and `GET /metrics`.

The definitions below are a shallow embedding of that code: durations and
random draws are rationals, label values are strings (HTTP status kept as a
natural number), and the side effects of the `finish` callback are an
explicit effect trace.
-/

/-- The label values attached to both metrics and to the completion log
record: method, endpoint and status (src/index.js lines 63-64,
src/unnamed/part_000 lines 46-47 pass the same three labels). -/
structure Labels where
  method : String
  endpoint : String
  status : Nat
deriving DecidableEq, Repr

/-- Winston log severities used by the two applications. -/
inductive LogLevel where
  | info
  | error
deriving DecidableEq, Repr

/-- One observable side effect of the instrumentation middleware's
`finish` callback. -/
inductive Effect where
  | incCounter (name : String) (labels : Labels)
  | observeHistogram (name : String) (labels : Labels) (value : ℚ)
  | logWrite (level : LogLevel) (message : String) (labels : Labels)
      (duration : ℚ) (time : String)
deriving DecidableEq, Repr

/-- The effect trace of the middleware's `res.on('finish', ...)` callback
(src/index.js lines 58-74 and src/unnamed/part_000 lines 41-57): one
counter increment, one histogram observation, and one `logger.info` call,
each built from `req.method`, `req.path` and `res.statusCode`. -/
def finishEffects (method path : String) (status : Nat) (duration : ℚ)
    (time : String) : List Effect :=
  [ Effect.incCounter "http_requests_total" ⟨method, path, status⟩,
    Effect.observeHistogram "http_response_time_seconds" ⟨method, path, status⟩ duration,
    Effect.logWrite LogLevel.info "Request completed" ⟨method, path, status⟩ duration time ]

/-- Number of counter increments in an effect trace. -/
def countIncs (effs : List Effect) : Nat :=
  effs.countP (fun e => match e with | Effect.incCounter _ _ => true | _ => false)

/-- Number of histogram observations in an effect trace. -/
def countObserves (effs : List Effect) : Nat :=
  effs.countP (fun e => match e with | Effect.observeHistogram _ _ _ => true | _ => false)

/-- Number of log calls in an effect trace. -/
def countLogs (effs : List Effect) : Nat :=
  effs.countP (fun e => match e with | Effect.logWrite _ _ _ _ _ => true | _ => false)

/-- The label values carried by the counter increments of a trace. -/
def incLabels (effs : List Effect) : List Labels :=
  effs.filterMap (fun e => match e with | Effect.incCounter _ l => some l | _ => none)

/-- The label values carried by the histogram observations of a trace. -/
def observeLabels (effs : List Effect) : List Labels :=
  effs.filterMap (fun e => match e with | Effect.observeHistogram _ l _ => some l | _ => none)

/-- The label values carried by the log calls of a trace. -/
def logLabels (effs : List Effect) : List Labels :=
  effs.filterMap (fun e => match e with | Effect.logWrite _ _ l _ _ => some l | _ => none)

/-- HTTP response bodies produced by the handlers: `res.json({message})`,
`res.status(500).json({error})`, the metrics exposition text, and the
default Express 404 body for unregistered paths. -/
inductive Body where
  | jsonMessage (message : String)
  | jsonError (error : String)
  | metricsExposition
  | notFound (path : String)
deriving DecidableEq, Repr

/-- Status code plus body of a finished response. -/
structure RequestOutcome where
  status : Nat
  body : Body
deriving DecidableEq, Repr

/-- Result of one `GET /abnormal` invocation: the response together with
the artificial delay (ms) the handler awaited before responding. -/
inductive AbnormalOutcome where
  | fastSuccess (status : Nat) (message : String)
  | serverError (status : Nat) (error : String)
  | slowSuccess (status : Nat) (message : String) (delayMs : Nat)
deriving DecidableEq, Repr

/-- The `GET /abnormal` handler body as a function of the value returned by
`Math.random()` (src/index.js lines 85-104, src/unnamed/part_000
lines 67-81): `random < 0.3` → fast 200 JSON, `random < 0.6` → 500 JSON
error, otherwise a 200 JSON response after a 3000 ms delay. -/
def abnormalHandler (random : ℚ) : AbnormalOutcome :=
  if random < 3/10 then
    AbnormalOutcome.fastSuccess 200 "Fast response"
  else if random < 6/10 then
    AbnormalOutcome.serverError 500 "Internal Server Error"
  else
    AbnormalOutcome.slowSuccess 200 "Slow response" 3000

/-- One invocation of `GET /abnormal` against a stream of pending
`Math.random()` values: the handler draws the single value
`const random = Math.random()` and leaves the rest of the stream
untouched. -/
def abnormalRun (rng : List ℚ) : Option (AbnormalOutcome × List ℚ) :=
  match rng with
  | [] => none
  | r :: rest => some (abnormalHandler r, rest)

/-- The status/body pair a `GET /abnormal` invocation responds with. -/
def abnormalOutcomeResponse (o : AbnormalOutcome) : RequestOutcome :=
  match o with
  | AbnormalOutcome.fastSuccess s m => ⟨s, Body.jsonMessage m⟩
  | AbnormalOutcome.serverError s e => ⟨s, Body.jsonError e⟩
  | AbnormalOutcome.slowSuccess s m _ => ⟨s, Body.jsonMessage m⟩

/-- C1: on the response `finish` event the middleware performs exactly one
counter increment, exactly one histogram observation and exactly one log
call, and all three carry the same method/endpoint/status label values. -/
theorem middleware_finish_exactly_once (method path : String) (status : Nat)
    (duration : ℚ) (time : String) :
    countIncs (finishEffects method path status duration time) = 1 ∧
    countObserves (finishEffects method path status duration time) = 1 ∧
    countLogs (finishEffects method path status duration time) = 1 ∧
    incLabels (finishEffects method path status duration time) =
      [⟨method, path, status⟩] ∧
    observeLabels (finishEffects method path status duration time) =
      [⟨method, path, status⟩] ∧
    logLabels (finishEffects method path status duration time) =
      [⟨method, path, status⟩] := by
  refine ⟨rfl, rfl, rfl, rfl, rfl, rfl⟩

/-- C2: each `GET /abnormal` invocation draws exactly one uniform random
value from the stream, and the outcome is partitioned into three bands:
`r < 0.3` → fast 200 JSON success, `0.3 ≤ r < 0.6` → 500 JSON error, and
`r ≥ 0.6` → 200 JSON success after the fixed 3000 ms delay. -/
theorem abnormal_bands (r : ℚ) (rest : List ℚ) (_h0 : 0 ≤ r) (_h1 : r < 1) :
    abnormalRun (r :: rest) = some (abnormalHandler r, rest) ∧
    (r < 3/10 →
      abnormalHandler r = AbnormalOutcome.fastSuccess 200 "Fast response") ∧
    (3/10 ≤ r → r < 6/10 →
      abnormalHandler r = AbnormalOutcome.serverError 500 "Internal Server Error") ∧
    (6/10 ≤ r →
      abnormalHandler r = AbnormalOutcome.slowSuccess 200 "Slow response" 3000) := by
  refine ⟨rfl, ?_, ?_, ?_⟩
  · intro hlt
    simp [abnormalHandler, hlt]
  · intro hge hlt
    simp [abnormalHandler, not_lt.2 hge, hlt]
  · intro hge
    have h3 : ¬ r < 3/10 := not_lt.2 (le_trans (by norm_num) hge)
    have h6 : ¬ r < 6/10 := not_lt.2 hge
    simp [abnormalHandler, h3, h6]

/-- Witness for C2 at the concrete draw r = 1/2 (error band). -/
theorem abnormal_bands_witness :
    (0 ≤ (1/2 : ℚ) ∧ (1/2 : ℚ) < 1) ∧
    (abnormalRun ((1/2 : ℚ) :: []) = some (abnormalHandler (1/2), []) ∧
     ((1/2 : ℚ) < 3/10 →
       abnormalHandler (1/2) = AbnormalOutcome.fastSuccess 200 "Fast response") ∧
     (3/10 ≤ (1/2 : ℚ) → (1/2 : ℚ) < 6/10 →
       abnormalHandler (1/2) = AbnormalOutcome.serverError 500 "Internal Server Error") ∧
     (6/10 ≤ (1/2 : ℚ) →
       abnormalHandler (1/2) = AbnormalOutcome.slowSuccess 200 "Slow response" 3000)) :=
  ⟨⟨by norm_num, by norm_num⟩, abnormal_bands (1/2) [] (by norm_num) (by norm_num)⟩

/-- The histogram bucket upper bounds configured for
`http_response_time_seconds` (src/index.js line 25, src/unnamed/part_000
line 25): `[0.1, 0.5, 1, 2, 5, 50, 100, 200, 500, 1000]`. -/
def codeBuckets : List ℚ := [1/10, 1/2, 1, 2, 5, 50, 100, 200, 500, 1000]

/-- One histogram series (fixed label combination): total observation
count, sum of observed values, and a cumulative count per finite bucket
bound. The +Inf bucket of the exposition format is the total count. -/
structure HistSeries where
  count : Nat
  sum : ℚ
  buckets : List (ℚ × Nat)
deriving DecidableEq, Repr

/-- A fresh series: everything zero. -/
def initHist (bounds : List ℚ) : HistSeries :=
  ⟨0, 0, bounds.map (fun b => (b, 0))⟩

/-- Modelled from the spec: the body of prom-client's `Histogram.observe`
is library code not present under `src/`; §4.1 specifies it as
"increments count, adds value to sum, and increments every bucket whose
bound ≥ value (cumulative-bucket semantics)". -/
def observeValue (v : ℚ) (h : HistSeries) : HistSeries :=
  { count := h.count + 1
    sum := h.sum + v
    buckets := h.buckets.map (fun bc => if v ≤ bc.1 then (bc.1, bc.2 + 1) else bc) }

/-- Observe a whole sequence of values, left to right, on one series. -/
def observeAll (obs : List ℚ) (h : HistSeries) : HistSeries :=
  obs.foldl (fun s v => observeValue v s) h

/-- The process-wide metric registry state: the value of
`http_requests_total` and the series of `http_response_time_seconds`,
per label combination. -/
structure MetricState where
  counters : Labels → Nat
  histograms : Labels → HistSeries

/-- Modelled from the spec: prom-client's `Counter.inc` is library code
not present under `src/`; §4.1 specifies `incrementCounter` as creating
the zero-valued series for unseen label combinations and incrementing
the addressed one (`MetricState.counters` is total, so unseen
combinations already read as zero). -/
def incCounterAt (l : Labels) (st : MetricState) : MetricState :=
  { st with counters := fun l' => if l' = l then st.counters l' + 1 else st.counters l' }

/-- Apply one histogram observation at a label combination. -/
def observeAt (l : Labels) (v : ℚ) (st : MetricState) : MetricState :=
  { st with histograms := fun l' => if l' = l then observeValue v (st.histograms l') else st.histograms l' }

/-- Apply one middleware effect to the registry (log calls leave the
registry unchanged). -/
def applyEffect (st : MetricState) (e : Effect) : MetricState :=
  match e with
  | Effect.incCounter _ l => incCounterAt l st
  | Effect.observeHistogram _ l v => observeAt l v st
  | Effect.logWrite _ _ _ _ _ => st

/-- Apply a whole effect trace, in order. -/
def applyEffects (st : MetricState) (effs : List Effect) : MetricState :=
  effs.foldl applyEffect st

/-- The GET routes registered by both applications. -/
def registeredGetRoutes : List String := ["/normal", "/abnormal", "/metrics"]

/-- The `GET /normal` handler's response (src/index.js lines 79-82,
src/unnamed/part_000 lines 62-64): `res.json` leaves the default 200
status. -/
def normalResponse : RequestOutcome :=
  ⟨200, Body.jsonMessage "This is a normal API response"⟩

/-- Routing of one request: the three registered GET routes, and the
Express default 404 for everything else. `random` feeds the `/abnormal`
handler. -/
def dispatch (method path : String) (random : ℚ) : RequestOutcome :=
  if method = "GET" ∧ path = "/normal" then normalResponse
  else if method = "GET" ∧ path = "/abnormal" then
    abnormalOutcomeResponse (abnormalHandler random)
  else if method = "GET" ∧ path = "/metrics" then ⟨200, Body.metricsExposition⟩
  else ⟨404, Body.notFound path⟩

/-- One full request through the application: the `app.use` middleware is
installed before every route (src/index.js line 56), so the `finish`
effect trace is produced for every response, with `req.path` (the raw
request path) and the final `res.statusCode` as labels. Returns the
response, the registry state afterwards, and the emitted effect trace. -/
def processRequest (st : MetricState) (method path : String) (random : ℚ)
    (duration : ℚ) (time : String) : RequestOutcome × MetricState × List Effect :=
  let resp := dispatch method path random
  let effs := finishEffects method path resp.status duration time
  (resp, applyEffects st effs, effs)

/-- C3: `GET /normal` responds 200 with body
`{"message":"This is a normal API response"}` and afterwards the counter
`http_requests_total{method="GET",endpoint="/normal",status="200"}` equals
its prior value plus one. -/
theorem normal_request_counts (st : MetricState) (random duration : ℚ)
    (time : String) :
    (processRequest st "GET" "/normal" random duration time).1 =
      ⟨200, Body.jsonMessage "This is a normal API response"⟩ ∧
    (processRequest st "GET" "/normal" random duration time).2.1.counters
        ⟨"GET", "/normal", 200⟩ =
      st.counters ⟨"GET", "/normal", 200⟩ + 1 := by
  constructor
  · rfl
  · simp [processRequest, dispatch, normalResponse, finishEffects, applyEffects,
      applyEffect, incCounterAt, observeAt]

/-- C9: the middleware is installed before every route, so a request to
`GET /metrics` and a request to an unregistered path (404) each increment
`http_requests_total`, record a histogram observation and emit a
`Request completed` log record, with the raw request path as the endpoint
label. -/
theorem middleware_covers_all_paths (st : MetricState) (p : String)
    (random duration : ℚ) (time : String) (hp : p ∉ registeredGetRoutes) :
    ((processRequest st "GET" "/metrics" random duration time).2.1.counters
        ⟨"GET", "/metrics", 200⟩ =
      st.counters ⟨"GET", "/metrics", 200⟩ + 1 ∧
     ((processRequest st "GET" "/metrics" random duration time).2.1.histograms
        ⟨"GET", "/metrics", 200⟩).count =
      (st.histograms ⟨"GET", "/metrics", 200⟩).count + 1 ∧
     Effect.logWrite LogLevel.info "Request completed" ⟨"GET", "/metrics", 200⟩
        duration time ∈
      (processRequest st "GET" "/metrics" random duration time).2.2) ∧
    ((processRequest st "GET" p random duration time).1.status = 404 ∧
     (processRequest st "GET" p random duration time).2.1.counters
        ⟨"GET", p, 404⟩ =
      st.counters ⟨"GET", p, 404⟩ + 1 ∧
     ((processRequest st "GET" p random duration time).2.1.histograms
        ⟨"GET", p, 404⟩).count =
      (st.histograms ⟨"GET", p, 404⟩).count + 1 ∧
     Effect.logWrite LogLevel.info "Request completed" ⟨"GET", p, 404⟩
        duration time ∈
      (processRequest st "GET" p random duration time).2.2) := by
  simp [registeredGetRoutes] at hp
  obtain ⟨h1, h2, h3⟩ := hp
  constructor
  · refine ⟨?_, ?_, ?_⟩
    · simp [processRequest, dispatch, finishEffects, applyEffects, applyEffect,
        incCounterAt, observeAt]
    · simp [processRequest, dispatch, finishEffects, applyEffects, applyEffect,
        incCounterAt, observeAt, observeValue]
    · simp [processRequest, dispatch, finishEffects]
  · refine ⟨?_, ?_, ?_, ?_⟩
    · simp [processRequest, dispatch, h1, h2, h3]
    · simp [processRequest, dispatch, h1, h2, h3, finishEffects, applyEffects,
        applyEffect, incCounterAt, observeAt]
    · simp [processRequest, dispatch, h1, h2, h3, finishEffects, applyEffects,
        applyEffect, incCounterAt, observeAt, observeValue]
    · simp [processRequest, dispatch, h1, h2, h3, finishEffects]

/-- Witness for C9 at the unregistered path "/nope" and the all-zero
registry state. -/
theorem middleware_covers_all_paths_witness :
    "/nope" ∉ registeredGetRoutes ∧
    (processRequest ⟨fun _ => 0, fun _ => initHist codeBuckets⟩ "GET" "/metrics"
        0 0 "t").2.1.counters ⟨"GET", "/metrics", 200⟩ = 1 ∧
    (processRequest ⟨fun _ => 0, fun _ => initHist codeBuckets⟩ "GET" "/nope"
        0 0 "t").1.status = 404 := by
  have h : "/nope" ∉ registeredGetRoutes := by decide
  have main := middleware_covers_all_paths
    ⟨fun _ => 0, fun _ => initHist codeBuckets⟩ "/nope" 0 0 "t" h
  exact ⟨h, main.1.1, main.2.1⟩

/-- Closed form of a sequence of observations on one series: the count
grows by the number of observations, the sum by their total, and each
bucket by the number of observed values below its bound. -/
theorem observeAll_spec (obs : List ℚ) (h : HistSeries) :
    (observeAll obs h).count = h.count + obs.length ∧
    (observeAll obs h).sum = h.sum + obs.sum ∧
    (observeAll obs h).buckets =
      h.buckets.map (fun bc => (bc.1, bc.2 + obs.countP (fun v => decide (v ≤ bc.1)))) := by
  induction obs generalizing h with
  | nil =>
    simp [observeAll]
  | cons v rest ih =>
    have step : observeAll (v :: rest) h = observeAll rest (observeValue v h) := rfl
    obtain ⟨ihc, ihs, ihb⟩ := ih (observeValue v h)
    rw [step]
    refine ⟨?_, ?_, ?_⟩
    · rw [ihc]
      simp [observeValue]
      omega
    · rw [ihs]
      simp [observeValue]
      ring
    · rw [ihb]
      simp only [observeValue, List.map_map]
      congr 1
      funext bc
      by_cases hv : v ≤ bc.1
      · simp [hv, List.countP_cons]
        omega
      · simp [hv, List.countP_cons]

/-- Counting values below a smaller bound never exceeds counting values
below a larger bound. -/
theorem countP_le_of_bound_le (obs : List ℚ) (b₁ b₂ : ℚ) (hb : b₁ ≤ b₂) :
    obs.countP (fun v => decide (v ≤ b₁)) ≤ obs.countP (fun v => decide (v ≤ b₂)) := by
  apply List.countP_mono_left
  intro a _ ha
  simp only [decide_eq_true_eq] at ha ⊢
  exact le_trans ha hb

/-- The number of observations the +Inf bucket of the exposition format
counts: every observation. -/
def plusInfBucket (obs : List ℚ) : Nat := obs.countP (fun _ => true)

/-- C4: each observation increments the series count by 1, adds the value
to the sum, and increments exactly the buckets whose bound is ≥ the value;
consequently, for the configured bounds, after any observation sequence
the bucket counts are monotonically non-decreasing in the bound and the
+Inf bucket equals the total count (which dominates every finite
bucket). -/
theorem histogram_cumulative (v : ℚ) (h : HistSeries) (obs : List ℚ) :
    (observeValue v h).count = h.count + 1 ∧
    (observeValue v h).sum = h.sum + v ∧
    (observeValue v h).buckets =
      h.buckets.map (fun bc => (bc.1, if v ≤ bc.1 then bc.2 + 1 else bc.2)) ∧
    (observeAll obs (initHist codeBuckets)).count = obs.length ∧
    List.Chain' (fun a b => a.2 ≤ b.2)
      (observeAll obs (initHist codeBuckets)).buckets ∧
    plusInfBucket obs = (observeAll obs (initHist codeBuckets)).count ∧
    (∀ bc ∈ (observeAll obs (initHist codeBuckets)).buckets,
      bc.2 ≤ (observeAll obs (initHist codeBuckets)).count) := by
  obtain ⟨hc, hs, hb⟩ := observeAll_spec obs (initHist codeBuckets)
  refine ⟨rfl, rfl, ?_, ?_, ?_, ?_, ?_⟩
  · simp only [observeValue]
    congr 1
    funext bc
    by_cases hv : v ≤ bc.1 <;> simp [hv]
  · rw [hc]
    simp [initHist]
  · rw [hb]
    simp only [initHist, codeBuckets, List.map_cons, List.map_nil, Nat.zero_add,
      List.chain'_cons, List.chain'_singleton, and_true]
    refine ⟨?_, ?_, ?_, ?_, ?_, ?_, ?_, ?_, ?_⟩ <;>
      · apply countP_le_of_bound_le
        norm_num
  · rw [hc]
    simp [plusInfBucket, initHist, List.countP_eq_length_filter, List.filter_eq_self]
  · intro bc hbc
    rw [hb] at hbc
    rw [hc]
    simp only [initHist, List.map_map, List.mem_map] at hbc
    obtain ⟨b, _, rfl⟩ := hbc
    have hle : List.countP (fun v => decide (v ≤ b)) obs ≤ obs.length :=
      List.countP_le_length _
    simp only [Function.comp, initHist]
    omega

/-- The endpoint label value the middleware attaches to metrics and log:
`req.path`, the raw request path (src/index.js lines 63-64 and 69,
src/unnamed/part_000 lines 46-47 and 52). -/
def middlewareEndpointLabel (rawPath : String) : String := rawPath

/-- The route template a raw path matches among the registered routes.
Both applications register only static GET routes, so a path's template is
the path itself when registered, and no template exists otherwise. -/
def routeTemplateOf (rawPath : String) : Option String :=
  if rawPath ∈ registeredGetRoutes then some rawPath else none

/-- C5 as stated: for every request the endpoint label is the matched
route template. -/
def c5_claim : Prop :=
  ∀ rawPath : String,
    routeTemplateOf rawPath = some (middlewareEndpointLabel rawPath)

/-- C5 fails on the code: a request to the unregistered path "/users/42"
matches no route template at all, yet the middleware still labels the
metrics and the log record with the raw path "/users/42". -/
theorem raw_path_label_counterexample : ¬ c5_claim := by
  intro h
  have h42 := h "/users/42"
  have hmem : "/users/42" ∉ registeredGetRoutes := by decide
  rw [routeTemplateOf, if_neg hmem] at h42
  exact Option.noConfusion h42

/-- C5 amended: the middleware uses the raw request path (`req.path`), not
the route template, as the endpoint label of the counter increment, the
histogram observation and the log record, for every request. -/
theorem middleware_labels_raw_path (method rawPath : String) (status : Nat)
    (duration : ℚ) (time : String) :
    (incLabels (finishEffects method (middlewareEndpointLabel rawPath) status
        duration time)).map Labels.endpoint = [rawPath] ∧
    (observeLabels (finishEffects method (middlewareEndpointLabel rawPath) status
        duration time)).map Labels.endpoint = [rawPath] ∧
    (logLabels (finishEffects method (middlewareEndpointLabel rawPath) status
        duration time)).map Labels.endpoint = [rawPath] :=
  ⟨rfl, rfl, rfl⟩

/-- The middleware's timing as a function of the runtime's `Date.now`
readings: reading 0 is taken at request entry (`const start = Date.now()`,
src/index.js line 57, part_000 line 40) and reading 1 inside the `finish`
callback; the recorded duration is `(Date.now() - start) / 1000` seconds
(src/index.js line 59, part_000 line 42). `Date.now` is the system wall
clock in milliseconds, which the operating system may adjust backwards
between the two readings. -/
def middlewareDuration (dateNow : Nat → Int) : ℚ :=
  ((dateNow 1 - dateNow 0 : Int) : ℚ) / 1000

/-- A clock trace is monotone when a later reading is never smaller. -/
def MonotoneClock (c : Nat → Int) : Prop := ∀ i j, i ≤ j → c i ≤ c j

/-- C6 as stated: the two timestamps come from a monotonic clock, so the
recorded duration is non-negative on every execution, whatever happens to
the wall clock. -/
def c6_claim : Prop := ∀ c : Nat → Int, 0 ≤ middlewareDuration c

/-- A wall clock that is adjusted backwards by 3 s between the middleware's
two readings. -/
def backwardsClock : Nat → Int := fun i => if i = 0 then 3000 else 0

/-- C6 fails on the code: `Date.now` is the adjustable wall clock, and on
the trace where it is set back 3 s between request entry and completion,
the middleware records the negative duration -3 s — impossible had the
timestamps come from a monotonic clock. -/
theorem wall_clock_counterexample :
    middlewareDuration backwardsClock = -3 ∧ ¬ c6_claim := by
  constructor
  · norm_num [middlewareDuration, backwardsClock]
  · intro h
    have hb := h backwardsClock
    norm_num [middlewareDuration, backwardsClock] at hb

/-- C6 amended: the duration recorded at completion equals the `Date.now`
wall-clock reading at the `finish` event minus the wall-clock reading
captured at entry, divided by 1000; it is non-negative only on executions
where the wall clock happens to behave monotonically. -/
theorem duration_from_wall_clock (c : Nat → Int) (hmono : MonotoneClock c) :
    middlewareDuration c = ((c 1 - c 0 : Int) : ℚ) / 1000 ∧
    0 ≤ middlewareDuration c := by
  refine ⟨rfl, ?_⟩
  have h01 : c 0 ≤ c 1 := hmono 0 1 (by omega)
  have hZ : (0 : Int) ≤ c 1 - c 0 := by omega
  have hQ : (0 : ℚ) ≤ ((c 1 - c 0 : Int) : ℚ) := by exact_mod_cast hZ
  exact div_nonneg hQ (by norm_num)

/-- Witness for the amended C6 on the monotone trace c i = i. -/
theorem duration_from_wall_clock_witness :
    MonotoneClock (fun i => (i : Int)) ∧
    (middlewareDuration (fun i => (i : Int)) =
      (((1 : Int) - (0 : Int) : Int) : ℚ) / 1000 ∧
     0 ≤ middlewareDuration (fun i => (i : Int))) := by
  have hmono : MonotoneClock (fun i => (i : Int)) := by
    intro i j hij
    show (i : Int) ≤ (j : Int)
    exact_mod_cast hij
  exact ⟨hmono, duration_from_wall_clock (fun i => (i : Int)) hmono⟩

/-- The log calls the Index variant's `GET /abnormal` handler itself emits
(src/index.js lines 85-104): an info record on entry, then an info record
in the fast and slow branches and `logger.error` in the 500 branch. -/
def abnormalHandlerLogsIndex (random : ℚ) : List (LogLevel × String) :=
  (LogLevel.info, "Abnormal endpoint called") ::
  (if random < 3/10 then [(LogLevel.info, "Fast response sent")]
   else if random < 6/10 then [(LogLevel.error, "Internal Server Error occurred")]
   else [(LogLevel.info, "Slow response sent")])

/-- The Part0 variant's `GET /abnormal` handler emits no log calls of its
own in any branch (src/unnamed/part_000 lines 67-81). -/
def abnormalHandlerLogsPart0 (_random : ℚ) : List (LogLevel × String) := []

/-- All log records produced for one `GET /abnormal` request in the Index
variant: the handler's own calls followed by the middleware's completion
record. -/
def abnormalRequestLogsIndex (random : ℚ) : List (LogLevel × String) :=
  abnormalHandlerLogsIndex random ++ [(LogLevel.info, "Request completed")]

/-- All log records produced for one `GET /abnormal` request in the Part0
variant. -/
def abnormalRequestLogsPart0 (random : ℚ) : List (LogLevel × String) :=
  abnormalHandlerLogsPart0 random ++ [(LogLevel.info, "Request completed")]

/-- Whether a list of log records contains one at error severity. -/
def hasErrorLog (records : List (LogLevel × String)) : Bool :=
  records.any (fun rec => decide (rec.1 = LogLevel.error))

/-- C7 as stated: whenever the handler produces a simulated 500, both
variants emit an error-severity log record for that request. -/
def c7_claim : Prop :=
  ∀ r : ℚ, 3/10 ≤ r → r < 6/10 →
    hasErrorLog (abnormalRequestLogsIndex r) = true ∧
    hasErrorLog (abnormalRequestLogsPart0 r) = true

/-- C7 fails on the Part0 variant: at the draw r = 2/5 its `GET /abnormal`
handler responds 500 but the request produces only the info-severity
completion record, no error-severity record. -/
theorem missing_error_log_counterexample : ¬ c7_claim := by
  intro h
  have h25 := (h (2/5) (by norm_num) (by norm_num)).2
  simp [abnormalRequestLogsPart0, abnormalHandlerLogsPart0, hasErrorLog] at h25

/-- C7 amended: on a simulated 500 the Index variant logs at error
severity while the Part0 variant emits no error-severity record (only the
info completion record); in both variants the handler returns a 500
response whose status the middleware reflects in the metrics. -/
theorem abnormal_error_logging (st : MetricState) (r duration : ℚ)
    (time : String) (hge : 3/10 ≤ r) (hlt : r < 6/10) :
    hasErrorLog (abnormalRequestLogsIndex r) = true ∧
    hasErrorLog (abnormalRequestLogsPart0 r) = false ∧
    (processRequest st "GET" "/abnormal" r duration time).1.status = 500 ∧
    (processRequest st "GET" "/abnormal" r duration time).2.1.counters
        ⟨"GET", "/abnormal", 500⟩ =
      st.counters ⟨"GET", "/abnormal", 500⟩ + 1 := by
  have h3 : ¬ r < 3/10 := not_lt.2 hge
  refine ⟨?_, ?_, ?_, ?_⟩
  · simp [abnormalRequestLogsIndex, abnormalHandlerLogsIndex, hasErrorLog, h3, hlt]
  · simp [abnormalRequestLogsPart0, abnormalHandlerLogsPart0, hasErrorLog]
  · simp [processRequest, dispatch, abnormalHandler, abnormalOutcomeResponse, h3, hlt]
  · simp [processRequest, dispatch, abnormalHandler, abnormalOutcomeResponse, h3,
      hlt, finishEffects, applyEffects, applyEffect, incCounterAt, observeAt]

/-- Witness for the amended C7 at r = 2/5 and the all-zero registry. -/
theorem abnormal_error_logging_witness :
    (3/10 ≤ (2/5 : ℚ) ∧ (2/5 : ℚ) < 6/10) ∧
    (hasErrorLog (abnormalRequestLogsIndex (2/5)) = true ∧
     hasErrorLog (abnormalRequestLogsPart0 (2/5)) = false ∧
     (processRequest ⟨fun _ => 0, fun _ => initHist codeBuckets⟩ "GET" "/abnormal"
        (2/5) 0 "t").1.status = 500 ∧
     (processRequest ⟨fun _ => 0, fun _ => initHist codeBuckets⟩ "GET" "/abnormal"
        (2/5) 0 "t").2.1.counters ⟨"GET", "/abnormal", 500⟩ = 1) :=
  ⟨⟨by norm_num, by norm_num⟩,
    abnormal_error_logging ⟨fun _ => 0, fun _ => initHist codeBuckets⟩ (2/5) 0 "t"
      (by norm_num) (by norm_num)⟩

/-- A broken-down timestamp, as produced by the JavaScript `Date` the
winston timestamp formats render. -/
structure DateTime where
  year : Nat
  month : Nat
  day : Nat
  hour : Nat
  minute : Nat
  second : Nat
  millis : Nat
deriving DecidableEq, Repr

/-- Zero-pad a number to two digits. -/
def pad2 (n : Nat) : String := if n < 10 then "0" ++ toString n else toString n

/-- Zero-pad a number to three digits. -/
def pad3 (n : Nat) : String :=
  if n < 10 then "00" ++ toString n
  else if n < 100 then "0" ++ toString n
  else toString n

/-- Zero-pad a number to four digits. -/
def pad4 (n : Nat) : String :=
  if n < 10 then "000" ++ toString n
  else if n < 100 then "00" ++ toString n
  else if n < 1000 then "0" ++ toString n
  else toString n

/-- The calendar-date half of both timestamp formats: `YYYY-MM-DD`. -/
def datePart (d : DateTime) : String :=
  pad4 d.year ++ "-" ++ pad2 d.month ++ "-" ++ pad2 d.day

/-- The time-of-day half of `Date.prototype.toISOString`:
`HH:mm:ss.SSS`. -/
def isoTimePart (d : DateTime) : String :=
  pad2 d.hour ++ ":" ++ pad2 d.minute ++ ":" ++ pad2 d.second ++ "." ++ pad3 d.millis

/-- The time-of-day half of the `'YYYY-MM-DD HH:mm:ss'` format string:
`HH:mm:ss`. -/
def hmsTimePart (d : DateTime) : String :=
  pad2 d.hour ++ ":" ++ pad2 d.minute ++ ":" ++ pad2 d.second

/-- Modelled from the spec: winston's default `format.timestamp()` (used
by the Part0 variant, part_000 line 30) is library code not under `src/`;
it stamps the record with `new Date().toISOString()`, the ISO-8601 string
`<date>T<time>Z`. -/
def isoTimestamp (d : DateTime) : String :=
  datePart d ++ "T" ++ isoTimePart d ++ "Z"

/-- The Index variant's `format.timestamp({ format: 'YYYY-MM-DD HH:mm:ss' })`
(src/index.js line 32): date and time joined by a space — no `T`
separator, no `Z`, no milliseconds. -/
def customTimestamp (d : DateTime) : String :=
  datePart d ++ " " ++ hmsTimePart d

/-- A log call as made by the application code: severity, message and
caller-supplied metadata, which may or may not contain a timestamp. -/
structure LogCall where
  level : LogLevel
  message : String
  meta : List (String × String)
deriving DecidableEq, Repr

/-- A record as serialized to a sink: either a JSON-like keyed structure
or a plain text line. -/
inductive Serialized where
  | jsonKeyed (fields : List (String × String))
  | textLine (line : String)
deriving DecidableEq, Repr

/-- The name winston prints for a severity. -/
def levelName : LogLevel → String
  | LogLevel.info => "info"
  | LogLevel.error => "error"

/-- Quote a string as a JSON string literal (metadata values here contain
no characters needing escapes). -/
def jsonQuote (s : String) : String := "\"" ++ s ++ "\""

/-- `JSON.stringify` of a flat key-value object. -/
def jsonStringify (meta : List (String × String)) : String :=
  "\x7b" ++
    String.intercalate "," (meta.map (fun kv => jsonQuote kv.1 ++ ":" ++ jsonQuote kv.2)) ++
  "\x7d"

/-- The trailing part of the Index variant's printf template:
`${Object.keys(meta).length ? JSON.stringify(meta) : ''}`. -/
def metaSuffix (meta : List (String × String)) : String :=
  if meta.isEmpty then "" else jsonStringify meta

/-- Serialization of the Part0 variant (part_000 lines 28-35):
`format.timestamp()` overwrites any caller-provided `timestamp` field with
the ISO string, and `format.json()` emits the keyed record. -/
def serializePart0 (now : DateTime) (c : LogCall) : Serialized :=
  Serialized.jsonKeyed
    ([("level", levelName c.level), ("message", c.message)] ++
     c.meta.filter (fun kv => kv.1 ≠ "timestamp") ++
     [("timestamp", isoTimestamp now)])

/-- Serialization of the Index variant (src/index.js lines 31-37): the
`printf` template produces the single text line
`${timestamp} [${level}]: ${message} ${meta}` (the `colorize` step only
wraps the level in terminal escapes and is omitted here). -/
def serializeIndex (now : DateTime) (c : LogCall) : Serialized :=
  Serialized.textLine
    (customTimestamp now ++ " [" ++ levelName c.level ++ "]: " ++ c.message ++
     " " ++ metaSuffix c.meta)

/-- A serialized record that is a JSON-like keyed structure containing an
ISO-8601 timestamp (a `<date>T<time>Z` value under the `timestamp`
key). -/
def IsKeyedWithIsoTimestamp (s : Serialized) : Prop :=
  ∃ fields, s = Serialized.jsonKeyed fields ∧
    ∃ a b, ("timestamp", a ++ "T" ++ b ++ "Z") ∈ fields

/-- C8 as stated: in both variants every record reaches the sinks as a
JSON-like keyed structure with an ISO-8601 timestamp. -/
def c8_claim : Prop :=
  ∀ (now : DateTime) (c : LogCall),
    IsKeyedWithIsoTimestamp (serializeIndex now c) ∧
    IsKeyedWithIsoTimestamp (serializePart0 now c)

/-- C8 fails on the Index variant: its serialization of the completion
record (here at 2024-01-01 00:00:00.000, no caller metadata) is a printf
text line, not a keyed structure, and its timestamp format
`'YYYY-MM-DD HH:mm:ss'` has no `T`/`Z` markers. -/
theorem printf_line_counterexample : ¬ c8_claim := by
  intro h
  obtain ⟨fields, heq, -⟩ :=
    (h ⟨2024, 1, 1, 0, 0, 0, 0⟩ ⟨LogLevel.info, "Request completed", []⟩).1
  simp [serializeIndex] at heq

/-- C8 amended: the Part0 variant serializes every record as a JSON-like
keyed structure carrying the ISO-8601 `timestamp` field even when the
caller supplied none, while the Index variant serializes every record as a
single printf-formatted text line built on the `'YYYY-MM-DD HH:mm:ss'`
timestamp. -/
theorem log_serialization_by_variant (now : DateTime) (c : LogCall) :
    (∃ fields, serializePart0 now c = Serialized.jsonKeyed fields ∧
      ("timestamp", datePart now ++ "T" ++ isoTimePart now ++ "Z") ∈ fields) ∧
    serializeIndex now c =
      Serialized.textLine
        (datePart now ++ " " ++ hmsTimePart now ++ " [" ++ levelName c.level ++
         "]: " ++ c.message ++ " " ++ metaSuffix c.meta) := by
  constructor
  · refine ⟨_, rfl, ?_⟩
    simp [isoTimestamp]
  · rfl

/-- A prom-client counter registration: name, help text and label names. -/
structure CounterConfig where
  name : String
  help : String
  labelNames : List String
deriving DecidableEq, Repr

/-- A prom-client histogram registration: name, help text, label names and
bucket bounds. -/
structure HistogramConfig where
  name : String
  help : String
  labelNames : List String
  buckets : List ℚ
deriving DecidableEq, Repr

/-- The Index variant's `requestCounter` (src/index.js lines 15-19). -/
def requestCounterIndex : CounterConfig :=
  ⟨"http_requests_total", "Total number of HTTP requests made",
    ["method", "endpoint", "status"]⟩

/-- The Part0 variant's `requestCounter` (src/unnamed/part_000
lines 15-19). -/
def requestCounterPart0 : CounterConfig :=
  ⟨"http_requests_total", "Total number of HTTP requests made",
    ["method", "endpoint", "status"]⟩

/-- The Index variant's `responseTimeHistogram` (src/index.js
lines 21-26). -/
def responseTimeHistogramIndex : HistogramConfig :=
  ⟨"http_response_time_seconds", "HTTP response time in seconds",
    ["method", "endpoint", "status"],
    [1/10, 1/2, 1, 2, 5, 50, 100, 200, 500, 1000]⟩

/-- The Part0 variant's `responseTimeHistogram` (src/unnamed/part_000
lines 21-26). -/
def responseTimeHistogramPart0 : HistogramConfig :=
  ⟨"http_response_time_seconds", "HTTP response time in seconds",
    ["method", "endpoint", "status"],
    [1/10, 1/2, 1, 2, 5, 50, 100, 200, 500, 1000]⟩

/-- The metric updates of the Index variant's `finish` callback
(src/index.js lines 63-64): counter increment then histogram observation,
both at `(req.method, req.path, res.statusCode)`. -/
def finishMetricUpdateIndex (method path : String) (status : Nat)
    (duration : ℚ) (st : MetricState) : MetricState :=
  observeAt ⟨method, path, status⟩ duration
    (incCounterAt ⟨method, path, status⟩ st)

/-- The metric updates of the Part0 variant's `finish` callback
(src/unnamed/part_000 lines 46-47). -/
def finishMetricUpdatePart0 (method path : String) (status : Nat)
    (duration : ℚ) (st : MetricState) : MetricState :=
  observeAt ⟨method, path, status⟩ duration
    (incCounterAt ⟨method, path, status⟩ st)

/-- Run a whole sequence of completed requests
(method, path, status, duration) through the Index variant's pipeline. -/
def runSequenceIndex (st : MetricState)
    (reqs : List (String × String × Nat × ℚ)) : MetricState :=
  reqs.foldl (fun s q => finishMetricUpdateIndex q.1 q.2.1 q.2.2.1 q.2.2.2 s) st

/-- Run a whole sequence of completed requests through the Part0 variant's
pipeline. -/
def runSequencePart0 (st : MetricState)
    (reqs : List (String × String × Nat × ℚ)) : MetricState :=
  reqs.foldl (fun s q => finishMetricUpdatePart0 q.1 q.2.1 q.2.2.1 q.2.2.2 s) st

/-- C10: the two variants register the same counter and histogram — same
names, same label names `["method", "endpoint", "status"]`, same bucket
bounds `[0.1, 0.5, 1, 2, 5, 50, 100, 200, 500, 1000]` — and perform the
same metric updates on response finish, so any request sequence leaves
both pipelines in the same metric state. -/
theorem variant_pipelines_equivalent :
    requestCounterIndex = requestCounterPart0 ∧
    responseTimeHistogramIndex = responseTimeHistogramPart0 ∧
    requestCounterIndex.labelNames = ["method", "endpoint", "status"] ∧
    responseTimeHistogramIndex.buckets =
      [1/10, 1/2, 1, 2, 5, 50, 100, 200, 500, 1000] ∧
    (∀ (method path : String) (status : Nat) (duration : ℚ) (st : MetricState),
      finishMetricUpdateIndex method path status duration st =
        finishMetricUpdatePart0 method path status duration st) ∧
    (∀ (reqs : List (String × String × Nat × ℚ)) (st : MetricState),
      runSequenceIndex st reqs = runSequencePart0 st reqs) :=
  ⟨rfl, rfl, rfl, rfl, fun _ _ _ _ _ => rfl, fun _ _ => rfl⟩
